import Mathlib

/-!
Shallow embedding of the go-eval scoring library (github.com/datar-psa/go-eval).

Floats are modelled as exact rationals (`ℚ`); the embedding similarity engine,
whose source computes square roots, is modelled over `ℝ`.  Each definition
mirrors one function or inline block of the Go source, with the file and line
range recorded in its doc comment.
-/

namespace GoEval

/-- `goeval.ScoreInputs` (scorer.go): the per-call inputs `{Output, Expected, Input}`. -/
structure ScoreInputs where
  output : String
  expected : String
  input : String
deriving DecidableEq

/-- The error values a scorer can place in `Score.Error`.  Mirrors the sentinel
errors of the library (`ErrNoExpectedValue`, `ErrLLMGenerationFailed`, the
`fmt.Errorf` messages of the scorers). -/
inductive ScoreErr where
  | noExpectedValue
  | llmRequired
  | llmGenerationFailed (msg : String)
  | extractFailed (field : String)
  | moderationProviderRequired
  | moderationFailed (msg : String)
  | embedderRequired
  | embedFailed (msg : String)
deriving DecidableEq

/-- `goeval.Score` (scorer.go), restricted to the fields the claims are about:
the scorer name, the numeric score (exact rational) and the optional error. -/
structure ScoreResult where
  name : String
  score : ℚ
  error : Option ScoreErr
deriving DecidableEq

/-- A value inside the untrusted structured judge response
(`map[string]interface{}` in Go). -/
inductive JVal where
  | str (s : String)
  | num (q : ℚ)
  | arr (xs : List String)
  | null
deriving DecidableEq

/-- The Go type assertion `v.(string)`: succeeds exactly on string values. -/
def JVal.asString : JVal → Option String
  | .str s => some s
  | _ => none

/-- An untrusted structured judge response: a key/value map, absent keys give
`none` (in Go, a map access that misses yields the `nil` interface value and
the `.(string)` assertion fails). -/
abbrev JResp : Type := String → Option JVal

/-- Extracting a required string field from a structured response: Go performs
`structuredResponse[key].(string)` and branches on the `ok` flag. -/
def getStringField (resp : JResp) (key : String) : Option String :=
  (resp key).bind JVal.asString

/-- A fixed-length-4 vector of rationals: the Go `[4]float64` used for the
weight and per-dimension score arrays of the tone scorers. -/
structure Vec4 where
  x0 : ℚ
  x1 : ℚ
  x2 : ℚ
  x3 : ℚ
deriving DecidableEq

/-- Index into a `Vec4`, matching Go array indexing `weights[i]`. -/
def Vec4.get (v : Vec4) : Fin 4 → ℚ
  | 0 => v.x0
  | 1 => v.x1
  | 2 => v.x2
  | 3 => v.x3

/-- Sum of all four entries, as Go loops `for _, w := range weights`. -/
def Vec4.sum (v : Vec4) : ℚ := v.x0 + v.x1 + v.x2 + v.x3

/-- tonality.go lines 222-228 (and part_009 lines 150-156): the loop counting
weights strictly greater than zero. -/
def countPositive (w : Vec4) : Nat :=
  (if 0 < w.x0 then 1 else 0) + (if 0 < w.x1 then 1 else 0) +
  (if 0 < w.x2 then 1 else 0) + (if 0 < w.x3 then 1 else 0)

/-- tonality.go lines 237-242 (and part_009 lines 165-170): the loop summing
only the positive weights. -/
def positiveSum (w : Vec4) : ℚ :=
  (if 0 < w.x0 then w.x0 else 0) + (if 0 < w.x1 then w.x1 else 0) +
  (if 0 < w.x2 then w.x2 else 0) + (if 0 < w.x3 then w.x3 else 0)

/-- tonality.go lines 230-250 (and part_009 lines 158-178): the inline weight
normalization.  If no weight is positive, every slot becomes `0.25`; otherwise
each positive weight is divided by the sum of the positive weights and every
other slot is left unchanged (note: a negative slot is NOT zeroed by the
source). -/
def normalizeWeights (w : Vec4) : Vec4 :=
  if countPositive w = 0 then ⟨1/4, 1/4, 1/4, 1/4⟩
  else if 0 < positiveSum w then
    ⟨if 0 < w.x0 then w.x0 / positiveSum w else w.x0,
     if 0 < w.x1 then w.x1 / positiveSum w else w.x1,
     if 0 < w.x2 then w.x2 / positiveSum w else w.x2,
     if 0 < w.x3 then w.x3 / positiveSum w else w.x3⟩
  else w

/-- tonality.go lines 252-256 (and part_009 lines 180-184): the weighted-sum
loop `finalScore += weights[i] * baseScores[i]`. -/
def weightedSum (w s : Vec4) : ℚ :=
  w.x0 * s.x0 + w.x1 * s.x1 + w.x2 * s.x2 + w.x3 * s.x3

/-- tonality.go lines 258-266: the threshold gate.  When the threshold is
positive and some dimension with positive (effective) weight has raw score
strictly below the threshold, the composite is replaced by 0. -/
def applyThresholdGate (threshold : ℚ) (w s : Vec4) (base : ℚ) : ℚ :=
  if 0 < threshold ∧
      ((0 < w.x0 ∧ s.x0 < threshold) ∨ (0 < w.x1 ∧ s.x1 < threshold) ∨
       (0 < w.x2 ∧ s.x2 < threshold) ∨ (0 < w.x3 ∧ s.x3 < threshold)) then 0
  else base

/-- tonality.go lines 183-189 and part_009 lines 132-138: the `choiceToScore`
map of the tone scorers.  A Go map lookup with a missing key yields the zero
value `0.0`, hence the final catch-all branch. -/
def choiceToScore (c : String) : ℚ :=
  if c = "A" then 0
  else if c = "B" then 1/4
  else if c = "C" then 1/2
  else if c = "D" then 3/4
  else if c = "E" then 1
  else 0

/-- factuality.go lines 113-122: the `choiceScores` map of the Factuality
scorer (Braintrust scoring).  Missing keys again yield `0.0`. -/
def choiceScores (c : String) : ℚ :=
  if c = "A" then 2/5
  else if c = "B" then 3/5
  else if c = "C" then 1
  else if c = "D" then 0
  else if c = "E" then 1
  else 0

/-- `llmjudge.TonalityOptions` (tonality.go lines 12-22). -/
structure TonalityOptions where
  professionalismWeight : ℚ
  kindnessWeight : ℚ
  clarityWeight : ℚ
  helpfulnessWeight : ℚ
  threshold : ℚ
deriving DecidableEq

/-- The raw weight array built from the option fields (tonality.go lines
215-220). -/
def tonalityRawWeights (opts : TonalityOptions) : Vec4 :=
  ⟨opts.professionalismWeight, opts.kindnessWeight,
   opts.clarityWeight, opts.helpfulnessWeight⟩

/-- The LLM collaborator as seen by a scorer: `none` models a nil generator;
otherwise the outcome of its single `StructuredGenerate` call. -/
abbrev LLMOutcome : Type := Option (Except String JResp)

/-- `tonalityScorer.Score` (tonality.go lines 77-289), paired with the number
of collaborator calls made.  The four grade fields are extracted with string
type assertions; grades are mapped by `choiceToScore`; weights built from the
options are normalized; the weighted sum is gated by the threshold. -/
def tonalityScore (opts : TonalityOptions) (llm : LLMOutcome)
    (inp : ScoreInputs) : ScoreResult × Nat :=
  match llm with
  | none => ({ name := "Tonality", score := 0, error := some .llmRequired }, 0)
  | some (.error e) =>
      ({ name := "Tonality", score := 0, error := some (.llmGenerationFailed e) }, 1)
  | some (.ok resp) =>
    match getStringField resp "professionalism" with
    | none => ({ name := "Tonality", score := 0,
                 error := some (.extractFailed "professionalism") }, 1)
    | some c0 =>
      match getStringField resp "kindness" with
      | none => ({ name := "Tonality", score := 0,
                   error := some (.extractFailed "kindness") }, 1)
      | some c1 =>
        match getStringField resp "clarity" with
        | none => ({ name := "Tonality", score := 0,
                     error := some (.extractFailed "clarity") }, 1)
        | some c2 =>
          match getStringField resp "helpfulness" with
          | none => ({ name := "Tonality", score := 0,
                       error := some (.extractFailed "helpfulness") }, 1)
          | some c3 =>
            let baseScores : Vec4 :=
              ⟨choiceToScore c0, choiceToScore c1, choiceToScore c2, choiceToScore c3⟩
            let weights := normalizeWeights (tonalityRawWeights opts)
            let base := weightedSum weights baseScores
            let final := applyThresholdGate opts.threshold weights baseScores base
            ({ name := "Tonality", score := final, error := none }, 1)

/-- `llmjudge.ToneRubricOptions` (part_009 lines 12-17). -/
structure ToneRubricOptions where
  weights : Vec4
deriving DecidableEq

/-- `toneRubricScorer.Score` (part_009 lines 56-202), paired with the number of
collaborator calls.  Identical pipeline to Tonality but without a threshold
gate. -/
def toneRubricScore (opts : ToneRubricOptions) (llm : LLMOutcome)
    (inp : ScoreInputs) : ScoreResult × Nat :=
  match llm with
  | none => ({ name := "ToneRubric", score := 0, error := some .llmRequired }, 0)
  | some (.error e) =>
      ({ name := "ToneRubric", score := 0, error := some (.llmGenerationFailed e) }, 1)
  | some (.ok resp) =>
    match getStringField resp "professionalism" with
    | none => ({ name := "ToneRubric", score := 0,
                 error := some (.extractFailed "professionalism") }, 1)
    | some c0 =>
      match getStringField resp "kindness" with
      | none => ({ name := "ToneRubric", score := 0,
                   error := some (.extractFailed "kindness") }, 1)
      | some c1 =>
        match getStringField resp "clarity" with
        | none => ({ name := "ToneRubric", score := 0,
                     error := some (.extractFailed "clarity") }, 1)
        | some c2 =>
          match getStringField resp "helpfulness" with
          | none => ({ name := "ToneRubric", score := 0,
                       error := some (.extractFailed "helpfulness") }, 1)
          | some c3 =>
            let scores : Vec4 :=
              ⟨choiceToScore c0, choiceToScore c1, choiceToScore c2, choiceToScore c3⟩
            let weights := normalizeWeights opts.weights
            let final := weightedSum weights scores
            ({ name := "ToneRubric", score := final, error := none }, 1)

/-- `factualityScorer.Score` (factuality.go lines 51-128), paired with the
number of collaborator calls.  The empty-expected check comes first, before the
nil-generator check and before any collaborator call. -/
def factualityScore (llm : LLMOutcome) (inp : ScoreInputs) : ScoreResult × Nat :=
  if inp.expected = "" then
    ({ name := "Factuality", score := 0, error := some .noExpectedValue }, 0)
  else
    match llm with
    | none => ({ name := "Factuality", score := 0, error := some .llmRequired }, 0)
    | some (.error e) =>
        ({ name := "Factuality", score := 0, error := some (.llmGenerationFailed e) }, 1)
    | some (.ok resp) =>
      match getStringField resp "choice" with
      | none => ({ name := "Factuality", score := 0,
                   error := some (.extractFailed "choice") }, 1)
      | some choice =>
        match getStringField resp "explanation" with
        | none => ({ name := "Factuality", score := 0,
                     error := some (.extractFailed "explanation") }, 1)
        | some _ =>
          ({ name := "Factuality", score := choiceScores choice, error := none }, 1)

/-- `interfaces.ModerationCategory` (interfaces/moderation.go). -/
structure ModerationCategory where
  name : String
  confidence : ℚ
deriving DecidableEq

/-- `interfaces.ModerationResult` (interfaces/moderation.go): categories plus
the provider-computed `IsSafe` flag and maximal confidence. -/
structure ModerationResult where
  categories : List ModerationCategory
  isSafe : Bool
  maxConfidence : ℚ
deriving DecidableEq

/-- `llmjudge.ModerationOptions` (part_006 lines 12-19), without the provider
field, which is passed separately below. -/
structure ModerationOptions where
  threshold : ℚ
  categories : List String
deriving DecidableEq

/-- The moderation collaborator: `none` models a nil provider; otherwise the
outcome of `Moderate` as a function of the moderated content. -/
abbrev ModerationProviderM : Type := Option (String → Except String ModerationResult)

/-- part_006 lines 67-86: the loop collecting flagged categories.  A category
is considered only when the options' category list is empty or contains its
name, and it is flagged when its confidence strictly exceeds the effective
threshold. -/
def flaggedCategories (opts : ModerationOptions) (threshold : ℚ)
    (cats : List ModerationCategory) : List (String × ℚ) :=
  (cats.filter (fun c =>
    (opts.categories.isEmpty || opts.categories.contains c.name) &&
    decide (threshold < c.confidence))).map (fun c => (c.name, c.confidence))

/-- `moderationScorer.Score` (part_006 lines 31-103), returning the score
result together with the `flagged_categories` metadata.  The score is 1 when
the provider reports the content safe and 0 otherwise; the effective threshold
(defaulting to 0.5 when the configured one is non-positive) and the category
filter feed only the flagged-categories metadata. -/
def moderationScore (provider : ModerationProviderM) (opts : ModerationOptions)
    (input output _expected : String) : ScoreResult × List (String × ℚ) :=
  match provider with
  | none => ({ name := "Moderation", score := 0,
               error := some .moderationProviderRequired }, [])
  | some f =>
    let content := if output = "" then input else output
    match f content with
    | .error e =>
        ({ name := "Moderation", score := 0, error := some (.moderationFailed e) }, [])
    | .ok resp =>
      let threshold := if opts.threshold ≤ 0 then 1/2 else opts.threshold
      let flagged := flaggedCategories opts threshold resp.categories
      ({ name := "Moderation", score := if resp.isSafe then 1 else 0,
         error := none }, flagged)

/-- `heuristic.ExactMatchOptions` (exactmatch.go lines 11-16). -/
structure ExactMatchOptions where
  caseInsensitive : Bool
  trimWhitespace : Bool
deriving DecidableEq

/-- `exactMatchScorer.Score` (exactmatch.go lines 27-64): empty expected is a
signalled error; otherwise whitespace trimming then case folding are applied
per options before the equality check. -/
def exactMatchScore (opts : ExactMatchOptions) (inp : ScoreInputs) : ScoreResult :=
  if inp.expected = "" then
    { name := "ExactMatch", score := 0, error := some .noExpectedValue }
  else
    let outputToCompare := if opts.trimWhitespace then inp.output.trim else inp.output
    let expectedToCompare := if opts.trimWhitespace then inp.expected.trim else inp.expected
    let outputToCompare :=
      if opts.caseInsensitive then outputToCompare.toLower else outputToCompare
    let expectedToCompare :=
      if opts.caseInsensitive then expectedToCompare.toLower else expectedToCompare
    { name := "ExactMatch",
      score := if outputToCompare = expectedToCompare then 1 else 0,
      error := none }

/-- similarity.go lines 89-94, dot-product accumulation of the loop
`dotProduct += a[i] * b[i]` (the loop runs over equal-length vectors). -/
def dotProduct (a b : List ℝ) : ℝ :=
  (a.zip b).foldl (fun acc p => acc + p.1 * p.2) 0

/-- similarity.go lines 89-94, the accumulation `normA += a[i] * a[i]`. -/
def sumSquares (a : List ℝ) : ℝ :=
  a.foldl (fun acc x => acc + x * x) 0

/-- similarity.go lines 96-97: the Euclidean norm `math.Sqrt(normA)`. -/
noncomputable def norm2 (a : List ℝ) : ℝ := Real.sqrt (sumSquares a)

/-- `cosineSimilarity` (similarity.go lines 84-104): 0 on length mismatch, 0
when either norm is zero, otherwise the guarded division. -/
noncomputable def cosineSimilarity (a b : List ℝ) : ℝ :=
  if a.length ≠ b.length then 0
  else if norm2 a = 0 ∨ norm2 b = 0 then 0
  else dotProduct a b / (norm2 a * norm2 b)

/-- A `Score` whose numeric field lives in `ℝ`, for the embedding scorer. -/
structure RScoreResult where
  name : String
  score : ℝ
  error : Option ScoreErr

/-- The embedder collaborator: `none` models a nil embedder; otherwise the
outcome of `Embed` as a function of the embedded text. -/
abbrev EmbedderM : Type := Option (String → Except String (List ℝ))

/-- `embeddingSimilarityScorer.Score` (similarity.go lines 28-80), paired with
the number of embedder calls made.  Empty expected returns immediately with
`ErrNoExpectedValue` and no embed call; otherwise output then expected are
embedded, cosine similarity is affinely mapped to [0,1] and clamped. -/
noncomputable def embeddingSimilarityScore (embedder : EmbedderM)
    (input output expected : String) : RScoreResult × Nat :=
  if expected = "" then
    ({ name := "EmbeddingSimilarity", score := 0, error := some .noExpectedValue }, 0)
  else
    match embedder with
    | none => ({ name := "EmbeddingSimilarity", score := 0,
                 error := some .embedderRequired }, 0)
    | some f =>
      match f output with
      | .error e => ({ name := "EmbeddingSimilarity", score := 0,
                       error := some (.embedFailed e) }, 1)
      | .ok outputEmbed =>
        match f expected with
        | .error e => ({ name := "EmbeddingSimilarity", score := 0,
                         error := some (.embedFailed e) }, 2)
        | .ok expectedEmbed =>
          let similarity := cosineSimilarity outputEmbed expectedEmbed
          let normalizedScore := (similarity + 1) / 2
          let normalizedScore := if normalizedScore < 0 then 0 else normalizedScore
          let normalizedScore := if 1 < normalizedScore then 1 else normalizedScore
          ({ name := "EmbeddingSimilarity", score := normalizedScore,
             error := none }, 2)

/-- Test fixture: a structured judge response carrying the four tone grade
fields with the given letters (as the mock generators of the unit tests do). -/
def gradesResp (p k c h : String) : JResp :=
  fun key =>
    if key = "professionalism" then some (.str p)
    else if key = "kindness" then some (.str k)
    else if key = "clarity" then some (.str c)
    else if key = "helpfulness" then some (.str h)
    else none

/-- Test fixture: a structured factuality response with a choice and an
explanation. -/
def factualityResp (choice explanation : String) : JResp :=
  fun key =>
    if key = "choice" then some (.str choice)
    else if key = "explanation" then some (.str explanation)
    else none

/-- Test fixture: a structured judge response carrying only the given subset
of the four tone grade fields (absent fields model missing keys in the
untrusted map). -/
def partialGradesResp (p k c h : Option String) : JResp :=
  fun key =>
    if key = "professionalism" then p.map JVal.str
    else if key = "kindness" then k.map JVal.str
    else if key = "clarity" then c.map JVal.str
    else if key = "helpfulness" then h.map JVal.str
    else none

/-- The nonnegative part `if 0 < x then x else 0` of a weight, as accumulated
by the positive-sum loop. -/
theorem posPart_nonneg (x : ℚ) : 0 ≤ if 0 < x then x else 0 := by
  split <;> linarith

/-- Auxiliary: over nonnegative inputs, the slot update of the normalization
loop agrees with dividing the positive part by the positive sum. -/
theorem normSlot_eq_posPart_div (x S : ℚ) (hx : 0 ≤ x) :
    (if 0 < x then x / S else x) = (if 0 < x then x else 0) / S := by
  by_cases h : 0 < x
  · simp [h]
  · have hx0 : x = 0 := le_antisymm (not_lt.mp h) hx
    simp [h, hx0]

/-- C1 (counterexample). The claim fails as stated: the raw weight vector
`(2, -1, 0, 0)` has a positive entry, yet the normalization of the judge
scorers leaves the negative entry at `-1` (it is not mapped to 0) and the
output sums to `0`, not `1` (so not within `1e-9` of 1 either). -/
theorem normalizeWeights_negative_entry_cex :
    0 < Vec4.get ⟨2, -1, 0, 0⟩ 0 ∧
    Vec4.sum (normalizeWeights ⟨2, -1, 0, 0⟩) = 0 ∧
    Vec4.get (normalizeWeights ⟨2, -1, 0, 0⟩) 1 = -1 ∧
    ¬ |Vec4.sum (normalizeWeights ⟨2, -1, 0, 0⟩) - 1| ≤ 1 / 1000000000 := by
  have h : normalizeWeights ⟨2, -1, 0, 0⟩ = ⟨1, -1, 0, 0⟩ := by
    simp +decide [normalizeWeights, countPositive, positiveSum]
  refine ⟨by decide, ?_, ?_, ?_⟩ <;> rw [h]
  · norm_num [Vec4.sum]
  · rfl
  · norm_num [Vec4.sum]

/-- C1 (amended). For every raw weight vector whose entries are all
nonnegative with at least one positive entry, the weight normalization of the
judge scorers outputs a vector summing exactly to 1 in which every originally
non-positive (hence zero) entry stays exactly 0.  (The source leaves negative
entries unchanged, so the nonnegativity hypothesis is necessary.) -/
theorem normalizeWeights_nonneg_sum_one (w : Vec4)
    (hnn : ∀ i : Fin 4, 0 ≤ Vec4.get w i) (hpos : ∃ i : Fin 4, 0 < Vec4.get w i) :
    Vec4.sum (normalizeWeights w) = 1 ∧
      ∀ i : Fin 4, Vec4.get w i ≤ 0 → Vec4.get (normalizeWeights w) i = 0 := by
  have h0 : 0 ≤ w.x0 := hnn 0
  have h1 : 0 ≤ w.x1 := hnn 1
  have h2 : 0 ≤ w.x2 := hnn 2
  have h3 : 0 ≤ w.x3 := hnn 3
  have hS : 0 < positiveSum w := by
    obtain ⟨i, hi⟩ := hpos
    have p0 := posPart_nonneg w.x0
    have p1 := posPart_nonneg w.x1
    have p2 := posPart_nonneg w.x2
    have p3 := posPart_nonneg w.x3
    fin_cases i
    · have hx : 0 < w.x0 := hi
      unfold positiveSum
      rw [if_pos hx]
      linarith
    · have hx : 0 < w.x1 := hi
      unfold positiveSum
      rw [if_pos hx]
      linarith
    · have hx : 0 < w.x2 := hi
      unfold positiveSum
      rw [if_pos hx]
      linarith
    · have hx : 0 < w.x3 := hi
      unfold positiveSum
      rw [if_pos hx]
      linarith
  have hc : ¬ countPositive w = 0 := by
    intro hzero
    obtain ⟨i, hi⟩ := hpos
    unfold countPositive at hzero
    fin_cases i
    · have hx : 0 < w.x0 := hi
      rw [if_pos hx] at hzero
      omega
    · have hx : 0 < w.x1 := hi
      rw [if_pos hx] at hzero
      omega
    · have hx : 0 < w.x2 := hi
      rw [if_pos hx] at hzero
      omega
    · have hx : 0 < w.x3 := hi
      rw [if_pos hx] at hzero
      omega
  have hnw : normalizeWeights w =
      ⟨if 0 < w.x0 then w.x0 / positiveSum w else w.x0,
       if 0 < w.x1 then w.x1 / positiveSum w else w.x1,
       if 0 < w.x2 then w.x2 / positiveSum w else w.x2,
       if 0 < w.x3 then w.x3 / positiveSum w else w.x3⟩ := by
    unfold normalizeWeights
    rw [if_neg hc, if_pos hS]
  constructor
  · rw [hnw]
    show (if 0 < w.x0 then w.x0 / positiveSum w else w.x0) +
        (if 0 < w.x1 then w.x1 / positiveSum w else w.x1) +
        (if 0 < w.x2 then w.x2 / positiveSum w else w.x2) +
        (if 0 < w.x3 then w.x3 / positiveSum w else w.x3) = 1
    rw [normSlot_eq_posPart_div w.x0 _ h0, normSlot_eq_posPart_div w.x1 _ h1,
      normSlot_eq_posPart_div w.x2 _ h2, normSlot_eq_posPart_div w.x3 _ h3,
      div_add_div_same, div_add_div_same, div_add_div_same]
    exact div_self (ne_of_gt hS)
  · intro i hle
    rw [hnw]
    fin_cases i
    · have hx : w.x0 ≤ 0 := hle
      show (if 0 < w.x0 then w.x0 / positiveSum w else w.x0) = 0
      rw [if_neg (not_lt.mpr hx)]
      exact le_antisymm hx h0
    · have hx : w.x1 ≤ 0 := hle
      show (if 0 < w.x1 then w.x1 / positiveSum w else w.x1) = 0
      rw [if_neg (not_lt.mpr hx)]
      exact le_antisymm hx h1
    · have hx : w.x2 ≤ 0 := hle
      show (if 0 < w.x2 then w.x2 / positiveSum w else w.x2) = 0
      rw [if_neg (not_lt.mpr hx)]
      exact le_antisymm hx h2
    · have hx : w.x3 ≤ 0 := hle
      show (if 0 < w.x3 then w.x3 / positiveSum w else w.x3) = 0
      rw [if_neg (not_lt.mpr hx)]
      exact le_antisymm hx h3

/-- C1 (witness): the amended theorem applied to the concrete raw weight
vector `(3, 0, 1, 0)`. -/
theorem normalizeWeights_nonneg_sum_one_witness :
    Vec4.sum (normalizeWeights ⟨3, 0, 1, 0⟩) = 1 ∧
      ∀ i : Fin 4, Vec4.get ⟨3, 0, 1, 0⟩ i ≤ 0 →
        Vec4.get (normalizeWeights ⟨3, 0, 1, 0⟩) i = 0 :=
  normalizeWeights_nonneg_sum_one ⟨3, 0, 1, 0⟩ (by decide) ⟨0, by decide⟩

/-- C5. For every raw weight vector in which every entry is non-positive, the
weight normalization of the judge scorers outputs the uniform vector with
every slot `1/4`, which sums to 1. -/
theorem normalizeWeights_allNonpos_uniform (w : Vec4)
    (h : ∀ i : Fin 4, Vec4.get w i ≤ 0) :
    normalizeWeights w = ⟨1/4, 1/4, 1/4, 1/4⟩ ∧
      Vec4.sum (normalizeWeights w) = 1 := by
  have h0 : w.x0 ≤ 0 := h 0
  have h1 : w.x1 ≤ 0 := h 1
  have h2 : w.x2 ≤ 0 := h 2
  have h3 : w.x3 ≤ 0 := h 3
  have hc : countPositive w = 0 := by
    unfold countPositive
    rw [if_neg (not_lt.mpr h0), if_neg (not_lt.mpr h1),
      if_neg (not_lt.mpr h2), if_neg (not_lt.mpr h3)]
  have hu : normalizeWeights w = ⟨1/4, 1/4, 1/4, 1/4⟩ := by
    unfold normalizeWeights
    rw [if_pos hc]
  refine ⟨hu, ?_⟩
  rw [hu]
  norm_num [Vec4.sum]

/-- C5 (witness): the theorem applied to the concrete all-non-positive raw
weight vector `(0, -1, 0, -2)`. -/
theorem normalizeWeights_allNonpos_uniform_witness :
    normalizeWeights ⟨0, -1, 0, -2⟩ = ⟨1/4, 1/4, 1/4, 1/4⟩ ∧
      Vec4.sum (normalizeWeights ⟨0, -1, 0, -2⟩) = 1 :=
  normalizeWeights_allNonpos_uniform ⟨0, -1, 0, -2⟩ (by decide)

/-- C3 (counterexample). The claim fails as stated for the Factuality judge
scorer: its grade map sends both `C` and `E` to 1 (not injective), sends `A`
to `2/5`, which is none of the five claimed values, and is not evenly
spaced. -/
theorem factuality_grade_map_cex :
    choiceScores "C" = choiceScores "E" ∧
    choiceScores "A" = 2/5 ∧
    ¬ (choiceScores "A" = 0 ∨ choiceScores "A" = 1/4 ∨ choiceScores "A" = 1/2 ∨
        choiceScores "A" = 3/4 ∨ choiceScores "A" = 1) ∧
    choiceScores "B" - choiceScores "A" ≠ choiceScores "C" - choiceScores "B" := by
  simp +decide [choiceScores]
  all_goals norm_num

/-- C3 (amended). In the tone judge scorers (Tonality and ToneRubric, which
share `choiceToScore`) the grade map is a total bijection over `A`-`E` onto
`{0, 1/4, 1/2, 3/4, 1}`, strictly monotone in grade ordinal and evenly spaced
with step `1/4`; the Factuality scorer's map (`A=2/5, B=3/5, C=1, D=0, E=1`)
is not injective and not evenly spaced. -/
theorem grade_map_tone_bijection_amended :
    (choiceToScore "A" = 0 ∧ choiceToScore "B" = 1/4 ∧ choiceToScore "C" = 1/2 ∧
      choiceToScore "D" = 3/4 ∧ choiceToScore "E" = 1) ∧
    (choiceToScore "A" < choiceToScore "B" ∧ choiceToScore "B" < choiceToScore "C" ∧
      choiceToScore "C" < choiceToScore "D" ∧ choiceToScore "D" < choiceToScore "E") ∧
    (choiceToScore "B" - choiceToScore "A" = 1/4 ∧
      choiceToScore "C" - choiceToScore "B" = 1/4 ∧
      choiceToScore "D" - choiceToScore "C" = 1/4 ∧
      choiceToScore "E" - choiceToScore "D" = 1/4) ∧
    (choiceScores "A" = 2/5 ∧ choiceScores "B" = 3/5 ∧ choiceScores "C" = 1 ∧
      choiceScores "D" = 0 ∧ choiceScores "E" = 1 ∧
      choiceScores "C" = choiceScores "E") := by
  simp +decide [choiceToScore, choiceScores]
  all_goals norm_num

/-- C4 (counterexample). The claim fails as stated: with weights
`(0.3, 0.2, 0.3, 0.2)` the tone-rubric scorer maps the validated grades
`professionalism=B, kindness=A, clarity=C, helpfulness=B` to the composite
`11/40 = 0.275`, not `0.725 = 29/40`. -/
theorem toneRubric_BACB_cex :
    (toneRubricScore ⟨⟨3/10, 1/5, 3/10, 1/5⟩⟩
        (some (.ok (gradesResp "B" "A" "C" "B"))) ⟨"out", "", "ctx"⟩).1.score = 11/40 ∧
    (11/40 : ℚ) ≠ 29/40 := by
  constructor
  · simp +decide [toneRubricScore, gradesResp, getStringField, JVal.asString,
      choiceToScore, normalizeWeights, countPositive, positiveSum, weightedSum]
    norm_num
  · norm_num

/-- C4 (amended). With weights `(0.3, 0.2, 0.3, 0.2)`, the tone-rubric scorer
scores the validated grades `B, A, C, B` as `0.275` under its scale
`A=0, B=1/4, C=1/2, D=3/4, E=1`; the composite `0.725` arises from the grades
`D, E, C, D`. -/
theorem toneRubric_composite_amended :
    (toneRubricScore ⟨⟨3/10, 1/5, 3/10, 1/5⟩⟩
        (some (.ok (gradesResp "B" "A" "C" "B"))) ⟨"out", "", "ctx"⟩).1.score = 11/40 ∧
    (toneRubricScore ⟨⟨3/10, 1/5, 3/10, 1/5⟩⟩
        (some (.ok (gradesResp "D" "E" "C" "D"))) ⟨"out", "", "ctx"⟩).1.score = 29/40 := by
  constructor <;>
    (simp +decide [toneRubricScore, gradesResp, getStringField, JVal.asString,
      choiceToScore, normalizeWeights, countPositive, positiveSum, weightedSum]
     norm_num)

/-- C2. For every per-dimension score vector (obtained from validated grades)
and the effective (normalized) weight vector of the Tonality judge scorer: if
the configured threshold is strictly positive and some dimension with positive
effective weight has raw per-dimension score strictly below the threshold, the
returned composite score is 0; if the threshold is non-positive, the returned
composite equals the weighted sum of the per-dimension scores unchanged. -/
theorem tonality_threshold_gate (opts : TonalityOptions) (resp : JResp)
    (inp : ScoreInputs) (c0 c1 c2 c3 : String)
    (h0 : getStringField resp "professionalism" = some c0)
    (h1 : getStringField resp "kindness" = some c1)
    (h2 : getStringField resp "clarity" = some c2)
    (h3 : getStringField resp "helpfulness" = some c3) :
    ((0 < opts.threshold →
      (∃ i : Fin 4,
        0 < Vec4.get (normalizeWeights (tonalityRawWeights opts)) i ∧
          Vec4.get ⟨choiceToScore c0, choiceToScore c1,
            choiceToScore c2, choiceToScore c3⟩ i < opts.threshold) →
      (tonalityScore opts (some (.ok resp)) inp).1.score = 0) ∧
    (opts.threshold ≤ 0 →
      (tonalityScore opts (some (.ok resp)) inp).1.score =
        weightedSum (normalizeWeights (tonalityRawWeights opts))
          ⟨choiceToScore c0, choiceToScore c1, choiceToScore c2, choiceToScore c3⟩)) := by
  have hrun : (tonalityScore opts (some (.ok resp)) inp).1.score =
      applyThresholdGate opts.threshold (normalizeWeights (tonalityRawWeights opts))
        ⟨choiceToScore c0, choiceToScore c1, choiceToScore c2, choiceToScore c3⟩
        (weightedSum (normalizeWeights (tonalityRawWeights opts))
          ⟨choiceToScore c0, choiceToScore c1, choiceToScore c2, choiceToScore c3⟩) := by
    simp only [tonalityScore, h0, h1, h2, h3]
  constructor
  · intro ht hex
    rw [hrun]
    unfold applyThresholdGate
    rw [if_pos]
    refine ⟨ht, ?_⟩
    obtain ⟨i, hw, hs⟩ := hex
    fin_cases i
    · exact Or.inl ⟨hw, hs⟩
    · exact Or.inr (Or.inl ⟨hw, hs⟩)
    · exact Or.inr (Or.inr (Or.inl ⟨hw, hs⟩))
    · exact Or.inr (Or.inr (Or.inr ⟨hw, hs⟩))
  · intro hle
    rw [hrun]
    unfold applyThresholdGate
    rw [if_neg]
    intro hcontra
    exact absurd hcontra.1 (not_lt.mpr hle)

/-- C2 (witness): with threshold 1 and weights concentrated on
professionalism, an `A` grade (raw score 0 < 1) zeroes the composite; with
threshold 0 the composite is the weighted sum. -/
theorem tonality_threshold_gate_witness :
    (tonalityScore ⟨1, 0, 0, 0, 1⟩
        (some (.ok (gradesResp "A" "E" "E" "E"))) ⟨"o", "", "c"⟩).1.score = 0 ∧
    (tonalityScore ⟨1, 0, 0, 0, 0⟩
        (some (.ok (gradesResp "A" "E" "E" "E"))) ⟨"o", "", "c"⟩).1.score =
      weightedSum (normalizeWeights (tonalityRawWeights ⟨1, 0, 0, 0, 0⟩))
        ⟨choiceToScore "A", choiceToScore "E", choiceToScore "E", choiceToScore "E"⟩ :=
  ⟨(tonality_threshold_gate ⟨1, 0, 0, 0, 1⟩ (gradesResp "A" "E" "E" "E")
      ⟨"o", "", "c"⟩ "A" "E" "E" "E" rfl rfl rfl rfl).1 (by decide)
      ⟨0, by simp +decide [normalizeWeights, tonalityRawWeights, countPositive,
            positiveSum, Vec4.get],
          by simp +decide [choiceToScore, Vec4.get]⟩,
   (tonality_threshold_gate ⟨1, 0, 0, 0, 0⟩ (gradesResp "A" "E" "E" "E")
      ⟨"o", "", "c"⟩ "A" "E" "E" "E" rfl rfl rfl rfl).2 (by decide)⟩

/-- C6. For every expected-requiring scorer (Factuality, EmbeddingSimilarity,
ExactMatch) and every input with empty `Expected`, the scorer returns
immediately with score 0 and the missing-expected-value error, and the
collaborator (LLM generator or embedder) is invoked zero times. -/
theorem missing_expected_short_circuit :
    (∀ (llm : LLMOutcome) (inp : ScoreInputs), inp.expected = "" →
      factualityScore llm inp =
        ({ name := "Factuality", score := 0, error := some .noExpectedValue }, 0)) ∧
    (∀ (emb : EmbedderM) (input output expected : String), expected = "" →
      embeddingSimilarityScore emb input output expected =
        ({ name := "EmbeddingSimilarity", score := 0, error := some .noExpectedValue }, 0)) ∧
    (∀ (opts : ExactMatchOptions) (inp : ScoreInputs), inp.expected = "" →
      exactMatchScore opts inp =
        { name := "ExactMatch", score := 0, error := some .noExpectedValue }) := by
  refine ⟨fun llm inp h => ?_, fun emb input output expected h => ?_,
    fun opts inp h => ?_⟩
  · simp [factualityScore, h]
  · simp [embeddingSimilarityScore, h]
  · simp [exactMatchScore, h]

/-- C6 (witness): the three short-circuit facts at concrete inputs with a
present collaborator. -/
theorem missing_expected_short_circuit_witness :
    factualityScore (some (.ok (factualityResp "C" "matches"))) ⟨"out", "", "q"⟩ =
      ({ name := "Factuality", score := 0, error := some .noExpectedValue }, 0) ∧
    embeddingSimilarityScore (some (fun _ => .ok [1])) "q" "out" "" =
      ({ name := "EmbeddingSimilarity", score := 0, error := some .noExpectedValue }, 0) ∧
    exactMatchScore ⟨true, true⟩ ⟨"out", "", "q"⟩ =
      { name := "ExactMatch", score := 0, error := some .noExpectedValue } :=
  ⟨missing_expected_short_circuit.1 (some (.ok (factualityResp "C" "matches")))
      ⟨"out", "", "q"⟩ rfl,
   missing_expected_short_circuit.2.1 (some (fun _ => .ok [1])) "q" "out" "" rfl,
   missing_expected_short_circuit.2.2 ⟨true, true⟩ ⟨"out", "", "q"⟩ rfl⟩

/-- C7 (counterexample). The claim fails as stated: for a judge response in
which `professionalism` holds the string `"F"` (outside the grade alphabet
A-E), the Tonality scorer reports no error at all and produces a numeric
composite (the unknown grade silently scores 0, and the remaining `E` grades
give composite 3/4 under default weights). -/
theorem tonality_unknown_grade_cex :
    (tonalityScore ⟨0, 0, 0, 0, 0⟩
        (some (.ok (gradesResp "F" "E" "E" "E"))) ⟨"o", "", "c"⟩).1.error = none ∧
    (tonalityScore ⟨0, 0, 0, 0, 0⟩
        (some (.ok (gradesResp "F" "E" "E" "E"))) ⟨"o", "", "c"⟩).1.score = 3/4 := by
  constructor
  · simp +decide [tonalityScore, gradesResp, getStringField, JVal.asString]
  · simp +decide [tonalityScore, gradesResp, getStringField, JVal.asString,
      choiceToScore, normalizeWeights, countPositive, positiveSum, weightedSum,
      applyThresholdGate, tonalityRawWeights]
    norm_num

/-- C7 (amended). The Tonality judge scorer's response validation checks only
presence and string-typedness of the four grade fields: a field that is
missing or not a string yields an extraction error identifying that field
(checked in the order professionalism, kindness, clarity, helpfulness), while
any four string values — including strings outside the grade alphabet A-E —
are accepted with no error, the unknown letters being scored 0 by the grade
map. -/
theorem tonality_validation_amended (opts : TonalityOptions) (resp : JResp)
    (inp : ScoreInputs) :
    (getStringField resp "professionalism" = none →
      (tonalityScore opts (some (.ok resp)) inp).1.error =
        some (.extractFailed "professionalism")) ∧
    (∀ c0, getStringField resp "professionalism" = some c0 →
      getStringField resp "kindness" = none →
      (tonalityScore opts (some (.ok resp)) inp).1.error =
        some (.extractFailed "kindness")) ∧
    (∀ c0 c1, getStringField resp "professionalism" = some c0 →
      getStringField resp "kindness" = some c1 →
      getStringField resp "clarity" = none →
      (tonalityScore opts (some (.ok resp)) inp).1.error =
        some (.extractFailed "clarity")) ∧
    (∀ c0 c1 c2, getStringField resp "professionalism" = some c0 →
      getStringField resp "kindness" = some c1 →
      getStringField resp "clarity" = some c2 →
      getStringField resp "helpfulness" = none →
      (tonalityScore opts (some (.ok resp)) inp).1.error =
        some (.extractFailed "helpfulness")) ∧
    (∀ c0 c1 c2 c3, getStringField resp "professionalism" = some c0 →
      getStringField resp "kindness" = some c1 →
      getStringField resp "clarity" = some c2 →
      getStringField resp "helpfulness" = some c3 →
      (tonalityScore opts (some (.ok resp)) inp).1.error = none) := by
  refine ⟨fun h0 => ?_, fun c0 h0 h1 => ?_, fun c0 c1 h0 h1 h2 => ?_,
    fun c0 c1 c2 h0 h1 h2 h3 => ?_, fun c0 c1 c2 c3 h0 h1 h2 h3 => ?_⟩
  · simp [tonalityScore, h0]
  · simp [tonalityScore, h0, h1]
  · simp [tonalityScore, h0, h1, h2]
  · simp [tonalityScore, h0, h1, h2, h3]
  · simp [tonalityScore, h0, h1, h2, h3]

/-- C7 (witness): the five validation outcomes at concrete responses — each
grade field in turn missing (or, for the first, a non-string number), then a
response whose grades are all strings, one of them the out-of-alphabet
`"F"`. -/
theorem tonality_validation_amended_witness :
    (tonalityScore ⟨0, 0, 0, 0, 0⟩
      (some (.ok (partialGradesResp none (some "A") (some "A") (some "A"))))
      ⟨"o", "", "c"⟩).1.error = some (.extractFailed "professionalism") ∧
    (tonalityScore ⟨0, 0, 0, 0, 0⟩
      (some (.ok (partialGradesResp (some "A") none (some "A") (some "A"))))
      ⟨"o", "", "c"⟩).1.error = some (.extractFailed "kindness") ∧
    (tonalityScore ⟨0, 0, 0, 0, 0⟩
      (some (.ok (partialGradesResp (some "A") (some "A") none (some "A"))))
      ⟨"o", "", "c"⟩).1.error = some (.extractFailed "clarity") ∧
    (tonalityScore ⟨0, 0, 0, 0, 0⟩
      (some (.ok (partialGradesResp (some "A") (some "A") (some "A") none)))
      ⟨"o", "", "c"⟩).1.error = some (.extractFailed "helpfulness") ∧
    (tonalityScore ⟨0, 0, 0, 0, 0⟩
      (some (.ok (gradesResp "F" "A" "A" "A"))) ⟨"o", "", "c"⟩).1.error = none :=
  ⟨(tonality_validation_amended ⟨0, 0, 0, 0, 0⟩
      (partialGradesResp none (some "A") (some "A") (some "A")) ⟨"o", "", "c"⟩).1 rfl,
   (tonality_validation_amended ⟨0, 0, 0, 0, 0⟩
      (partialGradesResp (some "A") none (some "A") (some "A")) ⟨"o", "", "c"⟩).2.1
      "A" rfl rfl,
   (tonality_validation_amended ⟨0, 0, 0, 0, 0⟩
      (partialGradesResp (some "A") (some "A") none (some "A")) ⟨"o", "", "c"⟩).2.2.1
      "A" "A" rfl rfl rfl,
   (tonality_validation_amended ⟨0, 0, 0, 0, 0⟩
      (partialGradesResp (some "A") (some "A") (some "A") none) ⟨"o", "", "c"⟩).2.2.2.1
      "A" "A" "A" rfl rfl rfl rfl,
   (tonality_validation_amended ⟨0, 0, 0, 0, 0⟩
      (gradesResp "F" "A" "A" "A") ⟨"o", "", "c"⟩).2.2.2.2
      "F" "A" "A" "A" rfl rfl rfl rfl⟩

/-- C8. For every modelled scorer of the library and every input, whenever the
returned score result carries an error, its numeric score field equals 0; each
scorer is a total function, so every failure path produces a normally returned
score value. -/
theorem error_implies_zero_score :
    (∀ (opts : TonalityOptions) (llm : LLMOutcome) (inp : ScoreInputs),
      (tonalityScore opts llm inp).1.error ≠ none →
      (tonalityScore opts llm inp).1.score = 0) ∧
    (∀ (opts : ToneRubricOptions) (llm : LLMOutcome) (inp : ScoreInputs),
      (toneRubricScore opts llm inp).1.error ≠ none →
      (toneRubricScore opts llm inp).1.score = 0) ∧
    (∀ (llm : LLMOutcome) (inp : ScoreInputs),
      (factualityScore llm inp).1.error ≠ none →
      (factualityScore llm inp).1.score = 0) ∧
    (∀ (provider : ModerationProviderM) (opts : ModerationOptions)
        (input output expected : String),
      (moderationScore provider opts input output expected).1.error ≠ none →
      (moderationScore provider opts input output expected).1.score = 0) ∧
    (∀ (opts : ExactMatchOptions) (inp : ScoreInputs),
      (exactMatchScore opts inp).error ≠ none →
      (exactMatchScore opts inp).score = 0) ∧
    (∀ (emb : EmbedderM) (input output expected : String),
      (embeddingSimilarityScore emb input output expected).1.error ≠ none →
      (embeddingSimilarityScore emb input output expected).1.score = 0) := by
  refine ⟨fun opts llm inp h => ?_, fun opts llm inp h => ?_, fun llm inp h => ?_,
    fun provider opts input output expected h => ?_, fun opts inp h => ?_,
    fun emb input output expected h => ?_⟩
  · rcases llm with _ | r
    · simp [tonalityScore]
    · rcases r with e | resp
      · simp [tonalityScore]
      · rcases hp : getStringField resp "professionalism" with _ | c0
        · simp [tonalityScore, hp]
        · rcases hk : getStringField resp "kindness" with _ | c1
          · simp [tonalityScore, hp, hk]
          · rcases hc : getStringField resp "clarity" with _ | c2
            · simp [tonalityScore, hp, hk, hc]
            · rcases hh : getStringField resp "helpfulness" with _ | c3
              · simp [tonalityScore, hp, hk, hc, hh]
              · exact absurd (by simp [tonalityScore, hp, hk, hc, hh]) h
  · rcases llm with _ | r
    · simp [toneRubricScore]
    · rcases r with e | resp
      · simp [toneRubricScore]
      · rcases hp : getStringField resp "professionalism" with _ | c0
        · simp [toneRubricScore, hp]
        · rcases hk : getStringField resp "kindness" with _ | c1
          · simp [toneRubricScore, hp, hk]
          · rcases hc : getStringField resp "clarity" with _ | c2
            · simp [toneRubricScore, hp, hk, hc]
            · rcases hh : getStringField resp "helpfulness" with _ | c3
              · simp [toneRubricScore, hp, hk, hc, hh]
              · exact absurd (by simp [toneRubricScore, hp, hk, hc, hh]) h
  · by_cases he : inp.expected = ""
    · simp [factualityScore, he]
    · rcases llm with _ | r
      · simp [factualityScore, he]
      · rcases r with e | resp
        · simp [factualityScore, he]
        · rcases hc : getStringField resp "choice" with _ | choice
          · simp [factualityScore, he, hc]
          · rcases hx : getStringField resp "explanation" with _ | expl
            · simp [factualityScore, he, hc, hx]
            · exact absurd (by simp [factualityScore, he, hc, hx]) h
  · rcases provider with _ | f
    · simp [moderationScore]
    · rcases hf : f (if output = "" then input else output) with e | resp
      · simp [moderationScore, hf]
      · exact absurd (by simp [moderationScore, hf]) h
  · by_cases he : inp.expected = ""
    · simp [exactMatchScore, he]
    · exact absurd (by simp [exactMatchScore, he]) h
  · by_cases he : expected = ""
    · simp [embeddingSimilarityScore, he]
    · rcases emb with _ | f
      · simp [embeddingSimilarityScore, he]
      · rcases ho : f output with e | oe
        · simp [embeddingSimilarityScore, he, ho]
        · rcases hx : f expected with e | ee
          · simp [embeddingSimilarityScore, he, ho, hx]
          · exact absurd (by simp [embeddingSimilarityScore, he, ho, hx]) h

/-- C8 (witness): each scorer evaluated on a concrete failing input — a nil
collaborator, or an empty expected value — where the returned error is present
and the score is 0. -/
theorem error_implies_zero_score_witness :
    (tonalityScore ⟨1, 1, 1, 1, 0⟩ none ⟨"o", "e", "c"⟩).1.score = 0 ∧
    (toneRubricScore ⟨⟨1, 1, 1, 1⟩⟩ none ⟨"o", "e", "c"⟩).1.score = 0 ∧
    (factualityScore none ⟨"o", "e", "c"⟩).1.score = 0 ∧
    (moderationScore none ⟨0, []⟩ "i" "o" "e").1.score = 0 ∧
    (exactMatchScore ⟨false, false⟩ ⟨"o", "", "c"⟩).score = 0 ∧
    (embeddingSimilarityScore none "i" "o" "e").1.score = 0 :=
  ⟨error_implies_zero_score.1 ⟨1, 1, 1, 1, 0⟩ none ⟨"o", "e", "c"⟩ (by simp [tonalityScore]),
   error_implies_zero_score.2.1 ⟨⟨1, 1, 1, 1⟩⟩ none ⟨"o", "e", "c"⟩
     (by simp [toneRubricScore]),
   error_implies_zero_score.2.2.1 none ⟨"o", "e", "c"⟩ (by simp [factualityScore]),
   error_implies_zero_score.2.2.2.1 none ⟨0, []⟩ "i" "o" "e" (by simp [moderationScore]),
   error_implies_zero_score.2.2.2.2.1 ⟨false, false⟩ ⟨"o", "", "c"⟩
     (by simp [exactMatchScore]),
   error_implies_zero_score.2.2.2.2.2 none "i" "o" "e"
     (by simp [embeddingSimilarityScore])⟩

/-- C9. For every pair of real vectors: a length mismatch yields similarity 0;
equal lengths with either Euclidean norm zero yield 0; otherwise the result is
exactly `dot(a,b) / (norm(a) * norm(b))` and that denominator is nonzero, so
the division is never taken with a zero denominator. -/
theorem cosineSimilarity_guarded (a b : List ℝ) :
    (a.length ≠ b.length → cosineSimilarity a b = 0) ∧
    (a.length = b.length → (norm2 a = 0 ∨ norm2 b = 0) → cosineSimilarity a b = 0) ∧
    (a.length = b.length → norm2 a ≠ 0 → norm2 b ≠ 0 →
      cosineSimilarity a b = dotProduct a b / (norm2 a * norm2 b) ∧
        norm2 a * norm2 b ≠ 0) := by
  refine ⟨fun hlen => ?_, fun hlen hz => ?_, fun hlen ha hb => ?_⟩
  · unfold cosineSimilarity
    rw [if_pos hlen]
  · unfold cosineSimilarity
    rw [if_neg (by simp [hlen]), if_pos hz]
  · unfold cosineSimilarity
    rw [if_neg (by simp [hlen]), if_neg (by simp [ha, hb])]
    exact ⟨rfl, mul_ne_zero ha hb⟩

/-- C9 (witness): the three branches at concrete vectors — mismatched lengths,
a zero-norm vector, and two unit-length one-dimensional vectors for which the
division really is taken with nonzero denominator. -/
theorem cosineSimilarity_guarded_witness :
    cosineSimilarity [1] [] = 0 ∧
    cosineSimilarity [0] [1] = 0 ∧
    (cosineSimilarity [1] [1] = dotProduct [1] [1] / (norm2 [1] * norm2 [1]) ∧
      norm2 [1] * norm2 [1] ≠ 0) :=
  ⟨(cosineSimilarity_guarded [1] []).1 (by decide),
   (cosineSimilarity_guarded [0] [1]).2.1 rfl
     (Or.inl (by simp [norm2, sumSquares])),
   (cosineSimilarity_guarded [1] [1]).2.2 rfl
     (by simp [norm2, sumSquares])
     (by simp [norm2, sumSquares])⟩

/-- C10. For every successful moderation-provider response, the Moderation
scorer's numeric score is `1` exactly when the provider's `IsSafe` flag is
true and `0` otherwise, with no error; any two option sets (arbitrary
thresholds and category filters) seeing the same provider response produce
equal scores — the options feed only the flagged-categories metadata. -/
theorem moderation_score_isSafe_only (o1 o2 : ModerationOptions)
    (f : String → Except String ModerationResult)
    (input output expected : String) (resp : ModerationResult)
    (hf : f (if output = "" then input else output) = .ok resp) :
    (moderationScore (some f) o1 input output expected).1.score =
      (if resp.isSafe then 1 else 0) ∧
    (moderationScore (some f) o1 input output expected).1.score =
      (moderationScore (some f) o2 input output expected).1.score ∧
    (moderationScore (some f) o1 input output expected).1.error = none := by
  refine ⟨?_, ?_, ?_⟩ <;> simp [moderationScore, hf]

/-- C10 (witness): a provider flagging the content unsafe gives score 0 under
two different option sets (default threshold with no category filter, versus
threshold 0.9 with a `Toxic`-only filter). -/
theorem moderation_score_isSafe_only_witness :
    (moderationScore (some (fun _ => .ok ⟨[⟨"Toxic", 1⟩], false, 1⟩))
        ⟨0, []⟩ "i" "bad" "e").1.score = (if (false : Bool) then 1 else 0) ∧
    (moderationScore (some (fun _ => .ok ⟨[⟨"Toxic", 1⟩], false, 1⟩))
        ⟨0, []⟩ "i" "bad" "e").1.score =
      (moderationScore (some (fun _ => .ok ⟨[⟨"Toxic", 1⟩], false, 1⟩))
        ⟨9/10, ["Toxic"]⟩ "i" "bad" "e").1.score ∧
    (moderationScore (some (fun _ => .ok ⟨[⟨"Toxic", 1⟩], false, 1⟩))
        ⟨0, []⟩ "i" "bad" "e").1.error = none :=
  moderation_score_isSafe_only ⟨0, []⟩ ⟨9/10, ["Toxic"]⟩
    (fun _ => .ok ⟨[⟨"Toxic", 1⟩], false, 1⟩) "i" "bad" "e"
    ⟨[⟨"Toxic", 1⟩], false, 1⟩ rfl

end GoEval
